import Mathlib

/-!
Verification of the RAG core of the forgeai backend against its
natural-language specification.

The development shallowly embeds the Python source:

* `backend/app/core/kb.py` — the TF-IDF knowledge store
  (`build_index_from_texts`, `add_texts_to_index`, `query_kb`, `clear_kb`);
* `backend/app/core/brain.py` — the chunker `split_text_to_chunks`, the
  extractor `extract_text_from_pdf_bytes` and the synchronous `ask_brain`;
* `backend/app/services/ai_service.py` — the multi-provider generation
  client (`ask_brain`, `stream_chat`).

Modelling conventions:

* Python strings are `String` (or `List Char` where Python slicing
  matters); Python ints are `ℤ` where a value can go negative in the
  source, otherwise `ℕ`; floats produced by the similarity pipeline are
  modelled as `ℚ` (only order and equality of scores are ever used).
* Python exceptions are explicit: a fallible function returns
  `Except ε α`; a `try/except` block is a `match` on that result.
* Calls into external libraries (sklearn's `TfidfVectorizer` +
  `cosine_similarity`, `pypdf`, the HTTP backends) are modelled as
  parameters or as enumerations of their observable outcomes, while all
  control flow of the repository's own code is translated literally.
-/

namespace ForgeAI

/-- Python exceptions raised by the knowledge-base code itself.  Only a
`TypeError` is ever reachable there (subscripting a `str` with `"text"`). -/
inductive PyErr where
  | typeError (msg : String)
deriving DecidableEq, Repr

/-- JSON values stored in the knowledge base's `texts.json`: either a bare
string (what `build_index_from_texts` writes) or a `{"text": ..., "source":
...}` dict (what `add_texts_to_index`'s docstring expects to find). -/
inductive PyVal where
  | str (s : String)
  | dict (text : String) (src : String)
deriving DecidableEq, Repr

/-- Python subscript `t["text"]` as it appears in `kb.py` lines 90 and 104:
it succeeds on a dict with a `"text"` key and raises `TypeError` when `t`
is a plain string (`"string indices must be integers"`). -/
def getText : PyVal → Except PyErr String
  | .str _ => .error (.typeError "string indices must be integers")
  | .dict t _ => .ok t

/-- Python list comprehension `[f(t) for t in l]` over a fallible `f`:
elements are evaluated left to right and the first exception aborts the
whole comprehension. -/
def pyListComp {α β ε : Type} (f : α → Except ε β) : List α → Except ε (List β)
  | [] => .ok []
  | a :: as =>
    match f a with
    | .error e => .error e
    | .ok b =>
      match pyListComp f as with
      | .error e => .error e
      | .ok bs => .ok (b :: bs)

/-- State of the knowledge base's on-disk files (`kb.py` module state).
`none` models a missing file.  `meta.json` carries no information used by
any operation and is omitted.  The matrix is a list of rows. -/
structure KBFiles where
  texts : Option (List PyVal)
  vectors : Option (List (List ℚ))
deriving DecidableEq, Repr

/-- Function `_load_texts` of `kb.py`: contents of `texts.json`, or `[]`
when the file does not exist. -/
def load_texts (s : KBFiles) : List PyVal :=
  s.texts.getD []

/-- Function `build_index_from_texts` of `kb.py` (lines 61-79).  `fit`
models sklearn's `TfidfVectorizer(max_features=5000, ngram_range=(1,2))
.fit_transform(...).toarray()`, an external library call: it turns the
corpus into a matrix.  The chunk list is saved to `texts.json` as bare
JSON strings; for an empty corpus the saved matrix is `np.zeros((0, 0))`,
a matrix with zero rows. -/
def build_index_from_texts (fit : List String → List (List ℚ))
    (text_chunks : List String) : KBFiles :=
  let saved : Option (List PyVal) := some (text_chunks.map PyVal.str)
  if text_chunks.length = 0 then
    { texts := saved, vectors := some [] }
  else
    { texts := saved, vectors := some (fit text_chunks) }

/-- Function `add_texts_to_index` of `kb.py` (lines 82-91).  New chunks are
dicts `{"text": ..., "source": ...}` (modelled as pairs).  The function
appends them to whatever `texts.json` holds and then evaluates the list
comprehension `[t["text"] for t in existing]`, which raises `TypeError` as
soon as an element is a bare string. -/
def add_texts_to_index (fit : List String → List (List ℚ)) (s : KBFiles)
    (new_text_chunks : List (String × String)) : Except PyErr KBFiles :=
  let existing := load_texts s ++ new_text_chunks.map fun c => PyVal.dict c.1 c.2
  match pyListComp getText existing with
  | .error e => .error e
  | .ok texts_only => .ok (build_index_from_texts fit texts_only)

/-- Function `clear_kb` of `kb.py` (lines 115-119): unlinks all three KB
files. -/
def clear_kb (_s : KBFiles) : KBFiles :=
  { texts := none, vectors := none }

/-- Documented contract of numpy's `np.argsort(sims)` (default kind): the
returned indices are a permutation of `0, ..., len(sims)-1` along which
the scores are ascending.  Nothing more is guaranteed: the default sort
is an introsort, which is NOT stable, so the relative order of indices
holding equal scores is unspecified (it depends on partition sizes and
pivot choices).  Since `np.argsort` is an external library call,
`query_kb` takes the sorting routine as a parameter, constrained by this
contract in the theorems that reason about result order. -/
def ArgsortSpec (argsort : List ℚ → List ℕ) : Prop :=
  ∀ sims : List ℚ,
    (argsort sims).Perm (List.range sims.length) ∧
    List.Sorted (fun i j => sims.getD i 0 ≤ sims.getD j 0) (argsort sims)

/-- Ascending comparison of indices by score, equal scores kept in index
order; sorting `range n` by it is a stable ascending argsort. -/
def simLe (sims : List ℚ) (i j : ℕ) : Prop :=
  sims.getD i 0 < sims.getD j 0 ∨ (sims.getD i 0 = sims.getD j 0 ∧ i ≤ j)

instance (sims : List ℚ) : DecidableRel (simLe sims) := fun i j => by
  unfold simLe; infer_instance

/-- Stable ascending argsort.  It agrees with `np.argsort` on the inputs
it is applied to in this development — arrays of fewer than 16 elements,
which numpy's introsort hands to a plain (stable) insertion sort — and it
serves as one concrete routine satisfying `ArgsortSpec`.  It is NOT a
model of `np.argsort` at larger sizes, where numpy gives no stability
guarantee. -/
def argsortStable (sims : List ℚ) : List ℕ :=
  List.insertionSort (simLe sims) (List.range sims.length)

/-- Function `query_kb` of `kb.py` (lines 94-112).  `sim` models the
sklearn pipeline of lines 103-107 (refit TF-IDF on the stored texts,
project the query, cosine similarity): it maps the corpus and the query to
the score row `sims`.  `argsort` models the `np.argsort` call of line
108, an external numpy routine about which only `ArgsortSpec` is
documented.  Lines 108-112 are translated literally:
`np.argsort(sims)[::-1][:top_k]` and the result list `(score, stored
item)`. -/
def query_kb (sim : List String → String → List ℚ)
    (argsort : List ℚ → List ℕ) (s : KBFiles)
    (query : String) (top_k : ℕ) : Except PyErr (List (ℚ × PyVal)) :=
  let texts := load_texts s
  if texts.isEmpty then .ok []
  else
    match pyListComp getText texts with
    | .error e => .error e
    | .ok corpus =>
      let sims := sim corpus query
      let idxs := ((argsort sims).reverse).take top_k
      .ok (idxs.map fun i => (sims.getD i 0, texts.getD i (PyVal.str "")))

/-- Similarity instance used for concrete evaluations of `query_kb`:
score 1 for a stored text equal to the query, 0 otherwise.  On the corpus
it is applied to below — duplicate one-word documents, queried with that
same word — this is exactly what the sklearn pipeline computes: identical
documents get identical TF-IDF rows, and the query, being equal to the
document, has cosine similarity 1 with them. -/
def simExact (corpus : List String) (q : String) : List ℚ :=
  corpus.map fun t => if t = q then 1 else 0

/-- Invariant claimed by the spec for the knowledge store: whenever a
matrix is stored, its row count equals the number of stored chunks; after
`clear_kb` both are gone. -/
def kbInvariant (s : KBFiles) : Prop :=
  match s.vectors with
  | some m => m.length = (load_texts s).length
  | none => load_texts s = []

/-! ### Chunker (`brain.py`, `split_text_to_chunks`) -/

/-- Python slice index normalisation for `s[a:b]` on a string of length
`n`: a negative index counts from the end (clamped at 0), a nonnegative
one is clamped at `n`. -/
def pyIdx (n : ℕ) (i : ℤ) : ℕ :=
  if i < 0 then (i + n).toNat else min i.toNat n

/-- Python string slice `l[a:b]`. -/
def pySlice (l : List Char) (a b : ℤ) : List Char :=
  (l.take (pyIdx l.length b)).drop (pyIdx l.length a)

/-- Python `str.strip()`: drop whitespace from both ends. -/
def pyStrip (l : List Char) : List Char :=
  ((l.dropWhile Char.isWhitespace).reverse.dropWhile Char.isWhitespace).reverse

/-- The `while start < L` loop of `split_text_to_chunks` (`brain.py` lines
114-121), with an explicit fuel counter: `none` means the loop was still
running after `fuel` iterations.  Each iteration computes
`end = min(start + chunk_size, L)`, appends the stripped slice
`text[start:end]` when nonempty, sets `start = end - overlap` and breaks
only when the new `start` is `>= L`. -/
def chunkLoop (text : List Char) (chunk_size overlap : ℤ) :
    ℕ → ℤ → List (List Char) → Option (List (List Char))
  | 0, _, _ => none
  | fuel + 1, start, chunks =>
    if start < (text.length : ℤ) then
      let e := min (start + chunk_size) (text.length : ℤ)
      let c := pyStrip (pySlice text start e)
      let chunks' := if c.isEmpty then chunks else chunks ++ [c]
      let start' := e - overlap
      if (text.length : ℤ) ≤ start' then some chunks'
      else chunkLoop text chunk_size overlap fuel start' chunks'
    else some chunks

/-- Hard ceiling of `split_text_to_chunks`: 10 MiB. -/
def MAX_TEXT_SIZE : ℕ := 10 * 1024 * 1024

/-- Function `split_text_to_chunks` of `brain.py` (lines 81-124), with a
fuel bound on the loop: empty text gives `[]`, the text is truncated to
10 MiB, text no longer than `chunk_size` is returned whole, and otherwise
the sliding-window loop runs.  A `none` result means the loop had not
terminated after `fuel` iterations. -/
def split_text_to_chunks (fuel : ℕ) (text : List Char)
    (chunk_size overlap : ℤ) : Option (List (List Char)) :=
  if text.isEmpty then some []
  else
    let text := text.take MAX_TEXT_SIZE
    if (text.length : ℤ) ≤ chunk_size then some [text]
    else chunkLoop text chunk_size overlap fuel 0 []

/-! ### Document extractor (`brain.py`, `extract_text_from_pdf_bytes`) -/

/-- Observable behaviour of `PdfReader` on some byte input:
`unparseable` models `PdfReader(fp)` (or `len(reader.pages)`) raising;
`pages ps` models a parsed document where entry `i` is `none` when
`reader.pages[i]` / `page.extract_text()` raises and `some t` when
extraction returns `t` (a `None` return is already mapped to `""` by the
source's `or ""`). -/
inductive PdfDoc where
  | unparseable
  | pages (ps : List (Option String))

/-- Page cap of `extract_text_from_pdf_bytes`: 100 pages. -/
def PDF_MAX_PAGES : ℕ := 100

/-- Output cap of `extract_text_from_pdf_bytes`: 5 MiB. -/
def PDF_MAX_TEXT_SIZE : ℕ := 5 * 1024 * 1024

/-- Function `extract_text_from_pdf_bytes` of `brain.py` (lines 129-161).
Every exception of the source is handled inside the function (the outer
`try` returns `""`, the per-page `try` skips the page), so the model is a
total function into `String`: an unparseable document gives `""`; for a
parsed one the first 100 pages are processed, failing pages are skipped,
pages whose text is empty after stripping are dropped, the rest are joined
with `"\n\n"`, and an oversized result is truncated with a marker. -/
def extract_text_from_pdf_bytes (doc : PdfDoc) : String :=
  match doc with
  | .unparseable => ""
  | .pages ps =>
    let texts := (ps.take PDF_MAX_PAGES).filterMap fun p =>
      match p with
      | none => none
      | some t => if (pyStrip t.toList).isEmpty then none else some t
    let result := String.intercalate "\n\n" texts
    if PDF_MAX_TEXT_SIZE < result.length then
      String.mk (result.toList.take PDF_MAX_TEXT_SIZE) ++
        "\n\n[Text truncated due to size limits...]"
    else result

/-! ### Generation client (`services/ai_service.py`) -/

/-- Module-level configuration of `ai_service.py`: whether
`google.generativeai` imported (`GOOGLE_AI_AVAILABLE`), whether
`settings.GOOGLE_AI_API_KEY` is truthy, and the value of
`GOOGLE_AI_MODEL` (set at import time, `None` when unconfigured or when
`genai.configure` failed). -/
structure AIConfig where
  google_ai_available : Bool
  google_ai_api_key : Bool
  google_ai_model : Option String
deriving DecidableEq, Repr

/-- Exceptions of `ai_service.py`: the three classified backend errors,
`ValueError` for configuration problems, and any other Python exception
carrying its message. -/
inductive AIErr where
  | valueError (msg : String)
  | rateLimitError (msg : String)
  | quotaExceededError (msg : String)
  | networkError (msg : String)
  | otherError (msg : String)
deriving DecidableEq, Repr

/-- Python substring test `pat in s` on strings. -/
def strHas (s pat : String) : Bool :=
  (List.range (s.toList.length + 1)).any fun i =>
    decide (((s.toList.drop i).take pat.toList.length) = pat.toList)

/-- Error classification performed by `_ask_google_ai` (lines 127-141) and
duplicated in `_stream_google_ai` (lines 318-330): inspect the raised
exception's message and re-raise it as `QuotaExceededError`,
`RateLimitError`, `NetworkError`, or unchanged. -/
def classifyGoogleError (m : String) : AIErr :=
  let ls := m.toLower
  if strHas m "429" || strHas ls "rate limit" || strHas ls "quota" then
    if strHas ls "daily" || strHas ls "quota exceeded" then
      .quotaExceededError ("Daily quota exceeded: " ++ m)
    else
      .rateLimitError ("Rate limit exceeded: " ++ m)
  else if strHas ls "network" || strHas ls "connection" || strHas ls "timeout" then
    .networkError ("Network error: " ++ m)
  else .otherError m

/-- Function `_ask_google_ai` of `ai_service.py` (lines 119-141).  The raw
outcome of the `generate_content_async` call is a parameter: `.ok s` is a
successful response text, `.error m` an exception with message `m`, which
the function reclassifies. -/
def ask_google_ai (raw : Except String String) : Except AIErr String :=
  match raw with
  | .ok s => .ok s
  | .error m => .error (classifyGoogleError m)

/-- Test `GOOGLE_AI_AVAILABLE and settings.GOOGLE_AI_API_KEY and
GOOGLE_AI_MODEL` guarding the primary attempt in auto mode (lines 86 and
198). -/
def googleConfigured (cfg : AIConfig) : Bool :=
  cfg.google_ai_available && cfg.google_ai_api_key && cfg.google_ai_model.isSome

namespace AIService

/-- Function `ask_brain` of `ai_service.py` (lines 64-116).  The outcomes
of the two backend calls are parameters: `googleRaw` is the raw result of
the Google call (classified by `ask_google_ai`), `ollama` the result of
`_ask_ollama` (whose own handlers re-raise, so its net effect is an
`Except`).  The returned `Bool` records whether `_ask_ollama` was invoked
(instrumentation for the "fallback contacted" observation; the source has
no corresponding value).  In auto mode every primary failure — the three
classified kinds and the final bare `except Exception` — falls through to
Ollama; in explicit `"google"` mode a missing library or API key raises
`ValueError` before any backend call; an unknown provider raises
`ValueError`. -/
def ask_brain (cfg : AIConfig) (googleRaw : Except String String)
    (ollama : Except AIErr String) (provider : String) :
    Except AIErr String × Bool :=
  if provider = "auto" then
    if googleConfigured cfg then
      match ask_google_ai googleRaw with
      | .ok s => (.ok s, false)
      | .error _ => (ollama, true)
    else (ollama, true)
  else if provider = "google" then
    if !cfg.google_ai_available then
      (.error (.valueError "Google AI not available. Install google-generativeai package."), false)
    else if !cfg.google_ai_api_key then
      (.error (.valueError "GOOGLE_AI_API_KEY not set in environment variables."), false)
    else (ask_google_ai googleRaw, false)
  else if provider = "ollama" then (ollama, true)
  else (.error (.valueError ("Provider " ++ provider ++ " not available. Use 'auto', 'google', or 'ollama'")), false)

end AIService

/-- Observable behaviour of one backend's stream: the fragments it yields
in order, then — optionally — a failure it raises after the last yielded
fragment (`none` means the stream completes normally).  `ε` is the raised
error's type: the raw message for the Google stream (classified later),
an `AIErr` for the Ollama stream. -/
structure StreamBeh (ε : Type) where
  frags : List String
  fail : Option ε
deriving DecidableEq, Repr

/-- Function `stream_chat` of `ai_service.py` (lines 172-231), as the
trace a consumer that keeps pulling observes: the list of fragments it
receives and the terminal error, if any.  In auto mode the primary
stream's fragments are forwarded as they arrive (`async for ... yield`);
an exception raised by the primary generator — whether before or after
fragments were yielded — is caught by the `except` arms on lines 203-210,
after which the Ollama stream is forwarded, so the consumer sees the
primary fragments followed by the whole fallback stream, and an error only
if the fallback itself raises. -/
def stream_chat (cfg : AIConfig) (google : StreamBeh String)
    (ollama : StreamBeh AIErr) (provider : String) :
    List String × Option AIErr :=
  if provider = "auto" then
    if googleConfigured cfg then
      match google.fail with
      | none => (google.frags, none)
      | some _ => (google.frags ++ ollama.frags, ollama.fail)
    else (ollama.frags, ollama.fail)
  else if provider = "google" then
    if !cfg.google_ai_available then
      ([], some (.valueError "Google AI not available. Install google-generativeai package."))
    else if !cfg.google_ai_api_key then
      ([], some (.valueError "GOOGLE_AI_API_KEY not set in environment variables."))
    else (google.frags, google.fail.map classifyGoogleError)
  else if provider = "ollama" then (ollama.frags, ollama.fail)
  else ([], some (.valueError ("Provider " ++ provider ++ " not available. Use 'auto', 'google', or 'ollama'")))

/-! ### Synchronous generation (`brain.py`, `ask_brain`) -/

/-- Observable outcome of the `httpx` POST in `brain.py`'s `ask_brain`:
`timeout` is `httpx.TimeoutException`, `connectError` is
`httpx.ConnectError`, `raised m` is any other exception with message `m`
(an HTTP error status from `raise_for_status`, a JSON decode failure, or
anything else), and `success f` is a 2xx response whose parsed JSON dict
has `f` as its optional `"response"` field. -/
inductive OllamaCall where
  | timeout
  | connectError
  | raised (msg : String)
  | success (responseField : Option String)
deriving DecidableEq, Repr

/-- Exceptions distinguishable by the handlers of `brain.py`'s
`ask_brain`. -/
inductive BrainExn where
  | timeoutExn
  | connectExn
  | otherExn (msg : String)
deriving DecidableEq, Repr

namespace Brain

/-- Body of the `try` block of `brain.py`'s `ask_brain` (lines 53-67): the
POST, `raise_for_status`, JSON parse and `result.get("response", "")`.
Every failure mode surfaces as a `BrainExn`. -/
def requestBody : OllamaCall → Except BrainExn String
  | .timeout => .error .timeoutExn
  | .connectError => .error .connectExn
  | .raised m => .error (.otherExn m)
  | .success f => .ok (f.getD "")

/-- Function `ask_brain` of `brain.py` (lines 35-76): the `try` body with
its three `except` handlers, each of which returns a message string
instead of re-raising.  The `Except` return type makes propagation
explicit: an uncaught exception would appear as `.error`. -/
def ask_brain (c : OllamaCall) : Except BrainExn String :=
  match requestBody c with
  | .ok s => .ok s
  | .error .timeoutExn =>
    .ok "AI request timed out. The PDF may be too large. Please try a smaller file."
  | .error .connectExn =>
    .ok "Cannot connect to Ollama. Please make sure Ollama is running."
  | .error (.otherExn m) => .ok ("AI service error: " ++ m)

end Brain

/-! ### Claim theorems -/

/-- C1: the spec claims that after `addChunks([{"text": "alpha", "source":
"s1"}])` on an empty store, `query("alpha", topK=1)` returns one result
with `chunk.source == "s1"` and positive score.  The code instead raises:
`add_texts_to_index` persists only the bare text strings, so `query_kb`'s
`t["text"]` hits a `str` and raises `TypeError` — the claim is right about
the intent (the docstrings of both functions promise dict metadata) and
the code is wrong. -/
theorem C1_add_then_query_raises (fit : List String → List (List ℚ))
    (sim : List String → String → List ℚ) (argsort : List ℚ → List ℕ) :
    ∃ s', add_texts_to_index fit ⟨none, none⟩ [("alpha", "s1")] = Except.ok s' ∧
      s'.texts = some [PyVal.str "alpha"] ∧
      query_kb sim argsort s' "alpha" 1 =
        Except.error (PyErr.typeError "string indices must be integers") := by
  exact ⟨⟨some [PyVal.str "alpha"], some (fit ["alpha"])⟩, rfl, rfl, rfl⟩

/-- Fixpoint of the chunker loop on `"abc"` with `chunk_size = 2`,
`overlap = 1`: from `start = 2` every iteration recomputes `end = 3` and
`start = 3 - 1 = 2` again, so no amount of fuel finishes the loop. -/
theorem chunkLoop_abc_fix :
    ∀ fuel (acc : List (List Char)),
      chunkLoop ['a', 'b', 'c'] 2 1 fuel 2 acc = none := by
  intro fuel
  induction fuel with
  | zero => intro acc; rfl
  | succ n ih =>
    intro acc
    have h : chunkLoop ['a', 'b', 'c'] 2 1 (n + 1) 2 acc =
        chunkLoop ['a', 'b', 'c'] 2 1 n 2 (acc ++ [['c']]) := rfl
    rw [h]
    exact ih _

/-- C2: the spec claims `split_text_to_chunks` terminates for every text
whenever `chunk_size` is positive and `0 ≤ overlap < chunk_size`.  It does
not: on `"abc"` with `chunk_size = 2`, `overlap = 1` the loop reaches
`start = 2` and stays there forever, because `start = end - overlap` is
capped at `len(text) - overlap` and the `start >= L` break can never fire
once `end` is clamped to `len(text)`.  Formally, the fuelled loop returns
`none` (still running) for every fuel value. -/
theorem C2_chunker_nonterminating :
    ∀ fuel, split_text_to_chunks fuel ['a', 'b', 'c'] 2 1 = none := by
  intro fuel
  match fuel with
  | 0 => rfl
  | 1 => rfl
  | n + 2 =>
    have h : split_text_to_chunks (n + 2) ['a', 'b', 'c'] 2 1 =
        chunkLoop ['a', 'b', 'c'] 2 1 n 2 [['a', 'b'], ['b', 'c']] := rfl
    rw [h]
    exact chunkLoop_abc_fix _ _

/-- C3 counterexample: the spec claims that once the primary stream has
yielded fragments, a subsequent primary failure is surfaced and the
request is never restarted on the fallback.  In the code the `except`
arms around the primary `async for` catch the failure even mid-stream and
then stream Ollama from scratch: with the primary yielding `"a", "b"` and
then raising, and Ollama replaying `"a", "b"`, the consumer receives
`"a", "b", "a", "b"` and no error — exactly the trace the spec rules
out. -/
theorem C3_counterexample :
    stream_chat ⟨true, true, some "gemini-1.5-flash"⟩
        ⟨["a", "b"], some "429 rate limit"⟩ ⟨["a", "b"], none⟩ "auto" =
      (["a", "b", "a", "b"], none) ∧
    ∀ e, stream_chat ⟨true, true, some "gemini-1.5-flash"⟩
        ⟨["a", "b"], some "429 rate limit"⟩ ⟨["a", "b"], none⟩ "auto" ≠
      (["a", "b"], some e) := by
  refine ⟨rfl, ?_⟩
  intro e h
  rw [show stream_chat ⟨true, true, some "gemini-1.5-flash"⟩
        ⟨["a", "b"], some "429 rate limit"⟩ ⟨["a", "b"], none⟩ "auto" =
      ((["a", "b", "a", "b"] : List String), (none : Option AIErr)) from rfl] at h
  simp at h

/-- C3 amended: in auto mode, when the primary stream fails — no matter
whether before or after yielding fragments — `stream_chat` delivers the
primary's fragments followed by the entire fallback stream, and surfaces
an error only if the fallback itself fails. -/
theorem C3_amended_midstream_fallback (cfg : AIConfig) (g : StreamBeh String)
    (o : StreamBeh AIErr) (m : String) (hc : googleConfigured cfg = true)
    (hf : g.fail = some m) :
    stream_chat cfg g o "auto" = (g.frags ++ o.frags, o.fail) := by
  simp [stream_chat, hc, hf]

/-- C3 amended, witnessed on a configured client whose primary yields
`"a", "b"` and fails while the fallback yields `"x"`. -/
theorem C3_amended_witness :
    stream_chat ⟨true, true, some "gemini-1.5-flash"⟩
        ⟨["a", "b"], some "boom"⟩ ⟨["x"], none⟩ "auto" =
      (["a", "b", "x"], none) :=
  C3_amended_midstream_fallback _ _ _ "boom" rfl rfl

/-- C5: in auto mode, whatever the configuration and whatever error the
primary Google call raises (rate limit, quota, network, or anything
else — all are caught by the `except` arms of lines 89-99), when Ollama
returns `"ok"` the single-shot `ask_brain` returns `"ok"` and no
exception propagates. -/
theorem C5_auto_fallback_returns_ok (cfg : AIConfig) (m : String) :
    AIService.ask_brain cfg (Except.error m) (Except.ok "ok") "auto" =
      (Except.ok "ok", true) := by
  cases hc : googleConfigured cfg <;>
    simp [AIService.ask_brain, hc, ask_google_ai]

/-- C6: in explicit `"google"` mode with the primary misconfigured — the
`google.generativeai` library unavailable or the API key unset —
`ask_brain` raises `ValueError` and Ollama is never contacted (the
instrumentation bit is `false`, and the result does not depend on the
`ollama` parameter at all). -/
theorem C6_explicit_google_misconfigured (cfg : AIConfig)
    (googleRaw : Except String String) (ollama : Except AIErr String)
    (h : cfg.google_ai_available = false ∨ cfg.google_ai_api_key = false) :
    ∃ m, AIService.ask_brain cfg googleRaw ollama "google" =
      (Except.error (AIErr.valueError m), false) := by
  rcases h with h | h
  · exact ⟨"Google AI not available. Install google-generativeai package.",
      by simp [AIService.ask_brain, h]⟩
  · cases ha : cfg.google_ai_available
    · exact ⟨"Google AI not available. Install google-generativeai package.",
        by simp [AIService.ask_brain, ha]⟩
    · exact ⟨"GOOGLE_AI_API_KEY not set in environment variables.",
        by simp [AIService.ask_brain, ha, h]⟩

/-- C6 witnessed with the library unavailable. -/
theorem C6_witness :
    ∃ m, AIService.ask_brain ⟨false, true, none⟩ (Except.ok "resp")
        (Except.ok "fallback") "google" =
      (Except.error (AIErr.valueError m), false) :=
  C6_explicit_google_misconfigured _ _ _ (Or.inl rfl)

/-- C8: `query_kb` on an empty knowledge store — whether the texts file is
missing or holds an empty list — returns `[]` for every query and every
`top_k`, and raises nothing (the result is `.ok`). -/
theorem C8_query_empty_store (sim : List String → String → List ℚ)
    (argsort : List ℚ → List ℕ) (q : String) (k : ℕ)
    (v : Option (List (List ℚ))) :
    query_kb sim argsort ⟨none, none⟩ q k = Except.ok [] ∧
    query_kb sim argsort ⟨some [], v⟩ q k = Except.ok [] :=
  ⟨rfl, rfl⟩

/-- C10: the synchronous `ask_brain` of `brain.py` never propagates an
exception: every backend outcome yields an `.ok` string, and each failure
mode is mapped to its human-readable message. -/
theorem C10_brain_ask_brain_total :
    (∀ c, ∃ s, Brain.ask_brain c = Except.ok s) ∧
    Brain.ask_brain OllamaCall.timeout =
      Except.ok "AI request timed out. The PDF may be too large. Please try a smaller file." ∧
    Brain.ask_brain OllamaCall.connectError =
      Except.ok "Cannot connect to Ollama. Please make sure Ollama is running." ∧
    (∀ m, Brain.ask_brain (OllamaCall.raised m) =
      Except.ok ("AI service error: " ++ m)) ∧
    (∀ f, Brain.ask_brain (OllamaCall.success f) = Except.ok (f.getD "")) := by
  refine ⟨?_, rfl, rfl, fun m => rfl, fun f => rfl⟩
  intro c
  cases c <;> exact ⟨_, rfl⟩

/-! ### Ranking lemmas for `query_kb` (claim C4) -/

/-- Totality of the stable-argsort comparison. -/
theorem simLe_total (sims : List ℚ) :
    ∀ i j, simLe sims i j ∨ simLe sims j i := by
  intro i j
  rcases lt_trichotomy (sims.getD i 0) (sims.getD j 0) with h | h | h
  · exact Or.inl (Or.inl h)
  · rcases Nat.le_total i j with hij | hij
    · exact Or.inl (Or.inr ⟨h, hij⟩)
    · exact Or.inr (Or.inr ⟨h.symm, hij⟩)
  · exact Or.inr (Or.inl h)

/-- Transitivity of the stable-argsort comparison. -/
theorem simLe_trans (sims : List ℚ) :
    ∀ i j k, simLe sims i j → simLe sims j k → simLe sims i k := by
  intro i j k h1 h2
  rcases h1 with h1 | ⟨he1, hle1⟩ <;> rcases h2 with h2 | ⟨he2, hle2⟩
  · exact Or.inl (h1.trans h2)
  · exact Or.inl (he2 ▸ h1)
  · exact Or.inl (he1 ▸ h2)
  · exact Or.inr ⟨he1.trans he2, hle1.trans hle2⟩

/-- The stable argsort is sorted for its comparison. -/
theorem argsortStable_sorted (sims : List ℚ) :
    List.Sorted (simLe sims) (argsortStable sims) := by
  haveI : IsTotal ℕ (simLe sims) := ⟨simLe_total sims⟩
  haveI : IsTrans ℕ (simLe sims) := ⟨fun a b c => simLe_trans sims a b c⟩
  exact List.sorted_insertionSort _ _

/-- The stable argsort meets numpy's documented argsort contract. -/
theorem argsortStable_spec : ArgsortSpec argsortStable := by
  intro sims
  refine ⟨List.perm_insertionSort _ _, ?_⟩
  exact List.Pairwise.imp
    (fun h => h.elim le_of_lt fun he => le_of_eq he.1)
    (argsortStable_sorted sims)

/-- C4 amended: for every argsort routine satisfying numpy's documented
contract (`ArgsortSpec` — a permutation with ascending values, stability
NOT guaranteed), `query_kb` on a store of well-formed chunk dicts returns
at most `top_k` results whose scores are descending.  No order among tied
scores is guaranteed, and in particular the claim's "lower index first"
tie-break does not hold: on small score rows, where numpy's sort is a
stable insertion sort, the code's reversal puts the HIGHER index first
(see the counterexample). -/
theorem C4_amended_ranking (sim : List String → String → List ℚ)
    (argsort : List ℚ → List ℕ) (has : ArgsortSpec argsort)
    (s : KBFiles) (q : String) (k : ℕ) (corpus : List String)
    (hne : (load_texts s).isEmpty = false)
    (hmap : pyListComp getText (load_texts s) = Except.ok corpus) :
    query_kb sim argsort s q k =
      Except.ok ((((argsort (sim corpus q)).reverse).take k).map fun i =>
        ((sim corpus q).getD i 0, (load_texts s).getD i (PyVal.str ""))) ∧
    ((((argsort (sim corpus q)).reverse).take k).map fun i =>
        ((sim corpus q).getD i 0, (load_texts s).getD i (PyVal.str ""))).length ≤ k ∧
    List.Pairwise (fun a b => b.1 ≤ a.1)
      ((((argsort (sim corpus q)).reverse).take k).map fun i =>
        ((sim corpus q).getD i 0, (load_texts s).getD i (PyVal.str ""))) := by
  refine ⟨?_, ?_, ?_⟩
  · simp [query_kb, hne, hmap]
  · rw [List.length_map, List.length_take]
    exact min_le_left _ _
  · rw [List.pairwise_map]
    refine List.Pairwise.sublist (List.take_sublist _ _) ?_
    rw [List.pairwise_reverse]
    exact (has (sim corpus q)).2

/-- C4 amended, witnessed on a two-chunk store with duplicate text, with
the stable argsort (numpy's behaviour at this size) as the routine. -/
theorem C4_amended_witness :
    query_kb simExact argsortStable
        ⟨some [PyVal.dict "alpha" "s0", PyVal.dict "alpha" "s1"], none⟩ "alpha" 2 =
      Except.ok ((((argsortStable (simExact ["alpha", "alpha"] "alpha")).reverse).take 2).map fun i =>
        ((simExact ["alpha", "alpha"] "alpha").getD i 0,
          (load_texts ⟨some [PyVal.dict "alpha" "s0", PyVal.dict "alpha" "s1"], none⟩).getD i
            (PyVal.str ""))) ∧
    ((((argsortStable (simExact ["alpha", "alpha"] "alpha")).reverse).take 2).map fun i =>
        ((simExact ["alpha", "alpha"] "alpha").getD i 0,
          (load_texts ⟨some [PyVal.dict "alpha" "s0", PyVal.dict "alpha" "s1"], none⟩).getD i
            (PyVal.str ""))).length ≤ 2 ∧
    List.Pairwise (fun a b => b.1 ≤ a.1)
      ((((argsortStable (simExact ["alpha", "alpha"] "alpha")).reverse).take 2).map fun i =>
        ((simExact ["alpha", "alpha"] "alpha").getD i 0,
          (load_texts ⟨some [PyVal.dict "alpha" "s0", PyVal.dict "alpha" "s1"], none⟩).getD i
            (PyVal.str ""))) :=
  C4_amended_ranking simExact argsortStable argsortStable_spec
    ⟨some [PyVal.dict "alpha" "s0", PyVal.dict "alpha" "s1"], none⟩ "alpha" 2
    ["alpha", "alpha"] rfl rfl

/-- C4 counterexample: on a store holding two chunks with identical text
(duplicates are explicitly possible per the data model) and a query equal
to that text, both scores are equal and `query_kb` returns the
later-inserted chunk (index 1, source `"s1"`) FIRST — the claim's
tie-breaking rule (lower index first) would require the index-0 chunk
(source `"s0"`) first, so the claim is false at this input.  The score
row here has two elements, so numpy's argsort is its (stable) insertion
sort and `argsortStable` is its exact behaviour: `np.argsort([1., 1.])`
is `[0, 1]`, reversed `[1, 0]`. -/
theorem C4_counterexample :
    query_kb simExact argsortStable
        ⟨some [PyVal.dict "alpha" "s0", PyVal.dict "alpha" "s1"], none⟩ "alpha" 2 =
      Except.ok [(1, PyVal.dict "alpha" "s1"), (1, PyVal.dict "alpha" "s0")] ∧
    query_kb simExact argsortStable
        ⟨some [PyVal.dict "alpha" "s0", PyVal.dict "alpha" "s1"], none⟩ "alpha" 2 ≠
      Except.ok [(1, PyVal.dict "alpha" "s0"), (1, PyVal.dict "alpha" "s1")] := by
  constructor
  · rfl
  · intro h
    rw [show query_kb simExact argsortStable
        ⟨some [PyVal.dict "alpha" "s0", PyVal.dict "alpha" "s1"], none⟩ "alpha" 2 =
      Except.ok [(1, PyVal.dict "alpha" "s1"), (1, PyVal.dict "alpha" "s0")] from rfl] at h
    simp at h

/-- C7: the document extractor degrades instead of raising.  The model is
a total `String`-valued function — every exception of the source is
handled inside it (the outer handler returns `""`, the per-page handler
skips the page), so no input propagates an error.  Concretely: (a) an
unparseable document yields the empty string; (b) within the 100-page
window, a page whose extraction fails contributes nothing and the
remaining pages are processed exactly as if the failing page were absent. -/
theorem C7_extractor_never_raises :
    extract_text_from_pdf_bytes PdfDoc.unparseable = "" ∧
    ∀ l₁ l₂ : List (Option String), (l₁ ++ none :: l₂).length ≤ PDF_MAX_PAGES →
      extract_text_from_pdf_bytes (PdfDoc.pages (l₁ ++ none :: l₂)) =
        extract_text_from_pdf_bytes (PdfDoc.pages (l₁ ++ l₂)) := by
  refine ⟨rfl, ?_⟩
  intro l₁ l₂ h
  have h2 : (l₁ ++ l₂).length ≤ PDF_MAX_PAGES := by
    simp only [List.length_append, List.length_cons] at h ⊢
    omega
  simp only [extract_text_from_pdf_bytes]
  rw [List.take_of_length_le h, List.take_of_length_le h2,
    List.filterMap_append, List.filterMap_append]
  rfl

/-- C7 witnessed on a three-page document whose middle page fails:
extraction returns pages 1 and 3, as if page 2 were absent. -/
theorem C7_witness :
    extract_text_from_pdf_bytes
        (PdfDoc.pages [some "one", none, some "three"]) =
      extract_text_from_pdf_bytes (PdfDoc.pages [some "one", some "three"]) :=
  C7_extractor_never_raises.2 [some "one"] [some "three"] (by decide)

/-- C9: every completed knowledge-store operation leaves the stored matrix
with exactly one row per stored chunk.  `fit` (the sklearn vectorizer) is
assumed to return one row per input document, which is its documented
behaviour.  `build_index_from_texts` always rewrites both files together
(zero-row matrix for an empty corpus); `add_texts_to_index` either raises
before writing anything or delegates to the rebuild; `clear_kb` removes
both files, after which the loaded chunk sequence is empty. -/
theorem C9_index_matches_chunks (fit : List String → List (List ℚ))
    (hfit : ∀ ts, (fit ts).length = ts.length) :
    (∀ chunks, kbInvariant (build_index_from_texts fit chunks)) ∧
    (∀ s new s', add_texts_to_index fit s new = Except.ok s' → kbInvariant s') ∧
    (∀ s, kbInvariant (clear_kb s)) := by
  have hb : ∀ chunks, kbInvariant (build_index_from_texts fit chunks) := by
    intro chunks
    unfold build_index_from_texts kbInvariant load_texts
    by_cases h : chunks.length = 0
    · simp [h]
    · simp [h, hfit]
  refine ⟨hb, ?_, ?_⟩
  · intro s new s' hadd
    simp only [add_texts_to_index] at hadd
    cases hm : pyListComp getText (load_texts s ++ new.map fun c => PyVal.dict c.1 c.2) with
    | error e => rw [hm] at hadd; exact absurd hadd (by simp)
    | ok ts =>
      rw [hm] at hadd
      injection hadd with hadd
      rw [← hadd]
      exact hb ts
  · intro s
    unfold kbInvariant clear_kb load_texts
    simp

/-- C9 witnessed: a rebuild over two chunks with a one-row-per-document
vectorizer satisfies the invariant. -/
theorem C9_witness :
    kbInvariant (build_index_from_texts (fun ts => ts.map fun _ => [])
      ["alpha", "beta"]) :=
  (C9_index_matches_chunks (fun ts => ts.map fun _ => [])
    (fun ts => by simp)).1 ["alpha", "beta"]

end ForgeAI
